import Mathlib

/-!
Shallow embedding of the homebridge-tuolife plugin: the device record from
src/types.ts, the reconciliation, fetch and upstream-send logic of
ExampleHomebridgePlatform (src/platform.ts), and the accessory handlers of
TuoLifeBulbAccessory (setOn, setBrightness, getOn). Mutable JavaScript state
is passed explicitly, log calls are tracked as counters or flags, and the
host platform and cloud API collaborators appear as explicit inputs or
effect lists.
-/

namespace TuoLife

/-- Device record from src/types.ts (TuoLifeBulbDevice). -/
structure TuoLifeBulbDevice where
  brightness : Int
  nickname : String
  generation : String
  userId : String
  groupId : String
  bulbId : String
  deviceId : String
  firmwareVersion : String
  isAvailable : Bool
  modeId : String
  red : Int
  green : Int
  blue : Int
  violet : Int
  whiteColor : Int
deriving Repr, DecidableEq

/-- Mode constants from src/types.ts (deviceModes). -/
structure DeviceModes where
  off : String
  onMode : String
  active5 : String
deriving Repr, DecidableEq

/-- The deviceModes constant of src/types.ts: the on mode is the string calm5. -/
def deviceModes : DeviceModes :=
  { off := "off", onMode := "calm5", active5 := "active5" }

/-- The accessory.context.device object: the stored device fields together with
the on property that platform.ts assigns dynamically
(context.device.on = device.modeId !== "off"). It is none until the first
reconciliation writes it. -/
structure ContextDevice where
  dev : TuoLifeBulbDevice
  onProp : Option Bool
deriving Repr, DecidableEq

/-- A host PlatformAccessory. The ref field models JavaScript object identity:
mutation in place keeps ref, while a freshly constructed accessory receives a
fresh ref. -/
structure PlatformAccessory where
  ref : Nat
  displayName : String
  uuid : String
  context : ContextDevice
deriving Repr, DecidableEq

/-- Models api.hap.uuid.generate of the host collaborator: a deterministic,
injective function of the bulbId string. -/
def uuidGenerate (s : String) : String := "uuid:" ++ s

/-- Platform state: the accessories Map (association list; reachable states
have unique keys), discoveredCacheUUIDs, the discovery guard flag, and a fresh
reference counter for accessory allocation. -/
structure PlatformState where
  accessories : List (String × PlatformAccessory)
  discoveredCacheUUIDs : List String
  isDiscoveryInProgress : Bool
  nextRef : Nat
deriving Repr, DecidableEq

/-- Host visible effects of one reconciliation call: the uuids passed to
registerPlatformAccessories and to unregisterPlatformAccessories, and the
number of log.error calls. -/
structure Effects where
  registeredUUIDs : List String
  unregisteredUUIDs : List String
  errorLogs : Nat
deriving Repr, DecidableEq

/-- Empty effect record at the start of a call. -/
def Effects.empty : Effects :=
  { registeredUUIDs := [], unregisteredUUIDs := [], errorLogs := 0 }

/-- Map.get on the accessories association list. -/
def lookupAcc : List (String × PlatformAccessory) → String → Option PlatformAccessory
  | [], _ => none
  | p :: ps, k => if p.1 = k then some p.2 else lookupAcc ps k

/-- In-place update of a matched accessory (platform.ts lines 111-112 and
206-207): context.device.brightness = Number(device.brightness) and
context.device.on = device.modeId !== "off". Everything else, the object
identity (ref) included, is preserved; in particular context.device.modeId is
NOT written. -/
def updateExisting (acc : PlatformAccessory) (device : TuoLifeBulbDevice) : PlatformAccessory :=
  { acc with context := { dev := { acc.context.dev with brightness := device.brightness },
                          onProp := some (device.modeId != deviceModes.off) } }

/-- The accessories Map after the in-place mutation of the accessory stored
under key k: the object returned by accessories.get(k) is the object stored
there, so mutating it updates the entry under k. -/
def mutateAt (m : List (String × PlatformAccessory)) (k : String) (d : TuoLifeBulbDevice) :
    List (String × PlatformAccessory) :=
  m.map (fun p => if p.1 = k then (p.1, updateExisting p.2 d) else p)

/-- One iteration of the device loop of registerDevices (platform.ts 90-147):
log.error and continue on a falsy bulbId; update a cached accessory in place;
or construct a fresh accessory, store the device in its context and register
it with the host. A freshly registered accessory is NOT added to the
accessories Map (the source never calls accessories.set here), and the uuid of
every processed device is pushed onto discoveredCacheUUIDs. -/
def registerOne (se : PlatformState × Effects) (device : TuoLifeBulbDevice) :
    PlatformState × Effects :=
  if device.bulbId = "" then
    (se.1, { se.2 with errorLogs := se.2.errorLogs + 1 })
  else
    match lookupAcc se.1.accessories (uuidGenerate device.bulbId) with
    | some _ =>
        ({ se.1 with
            accessories := mutateAt se.1.accessories (uuidGenerate device.bulbId) device,
            discoveredCacheUUIDs := se.1.discoveredCacheUUIDs ++ [uuidGenerate device.bulbId] },
         se.2)
    | none =>
        ({ se.1 with
            nextRef := se.1.nextRef + 1,
            discoveredCacheUUIDs := se.1.discoveredCacheUUIDs ++ [uuidGenerate device.bulbId] },
         { se.2 with registeredUUIDs := se.2.registeredUUIDs ++ [uuidGenerate device.bulbId] })

/-- Removal phase of registerDevices (platform.ts 152-157): every accessory of
the Map whose uuid is not in discoveredCacheUUIDs is passed to
unregisterPlatformAccessories. The accessories Map itself is not modified:
there is no delete call in the source. -/
def removalPass (st : PlatformState) (eff : Effects) : Effects :=
  { eff with unregisteredUUIDs := eff.unregisteredUUIDs ++
      ((st.accessories.filter (fun p => !(st.discoveredCacheUUIDs.contains p.1))).map
        (fun p => p.1)) }

/-- registerDevices (platform.ts 87-159): the device loop followed by the
removal phase. -/
def registerDevices (devices : List TuoLifeBulbDevice) (st : PlatformState) :
    PlatformState × Effects :=
  let se := devices.foldl registerOne (st, Effects.empty)
  (se.1, removalPass se.1 se.2)

/-- One iteration of the loop of syncBulbsWithServer (platform.ts 200-213): a
matched accessory is updated in place exactly as in registerDevices; an
unmatched device is ignored. There is no bulbId check, no registration, no
discoveredCacheUUIDs push and no removal. -/
def syncOne (st : PlatformState) (device : TuoLifeBulbDevice) : PlatformState :=
  match lookupAcc st.accessories (uuidGenerate device.bulbId) with
  | some _ =>
      { st with accessories := mutateAt st.accessories (uuidGenerate device.bulbId) device }
  | none => st

/-- syncBulbsWithServer (platform.ts 194-217): the body of the 5 second poll,
given the already fetched device list. It registers and unregisters nothing. -/
def syncBulbsWithServer (devices : List TuoLifeBulbDevice) (st : PlatformState) :
    PlatformState × Effects :=
  (devices.foldl syncOne st, Effects.empty)

/-- Match test of the registerDevices loop for a device against a Map key: the
bulbId must be truthy and must generate the key. -/
def regMatch (d : TuoLifeBulbDevice) (k : String) : Bool :=
  !(d.bulbId == "") && (uuidGenerate d.bulbId == k)

/-- Match test of the syncBulbsWithServer loop: the uuid is generated without
any bulbId check. -/
def syncMatch (d : TuoLifeBulbDevice) (k : String) : Bool :=
  uuidGenerate d.bulbId == k

/-- Action of a single fetched device on a single Map entry, for a given match
test. -/
def entryStepP (f : TuoLifeBulbDevice → String → Bool) (d : TuoLifeBulbDevice)
    (p : String × PlatformAccessory) : String × PlatformAccessory :=
  if f d p.1 then (p.1, updateExisting p.2 d) else p

/-- Action of a fetched device list on a single Map entry. -/
def entryFoldP (f : TuoLifeBulbDevice → String → Bool) (p : String × PlatformAccessory)
    (D : List TuoLifeBulbDevice) : String × PlatformAccessory :=
  D.foldl (fun q d => entryStepP f d q) p

/-- Last device of the list matching the key: the device whose values survive
the sequence of in-place overwrites. -/
def lastMatchP (f : TuoLifeBulbDevice → String → Bool) (k : String)
    (D : List TuoLifeBulbDevice) : Option TuoLifeBulbDevice :=
  D.foldl (fun a d => if f d k then some d else a) none

/-- The uuids the registerDevices loop passes to registerPlatformAccessories,
as a function of the key list of the accessories Map (the Map keys never
change during the loop, because fresh accessories are not added to it). -/
def regRegistered (keys : List String) : List TuoLifeBulbDevice → List String
  | [] => []
  | d :: ds =>
      (if d.bulbId = "" then []
       else if uuidGenerate d.bulbId ∈ keys then []
       else [uuidGenerate d.bulbId]) ++ regRegistered keys ds

/-- Raw wire-format device object of the cloud response: every field possibly
absent (undefined). -/
structure RawDevice where
  bulb_ID : Option String
  groupId : Option String
  nickname : Option String
  modeId : Option String
  generation : Option String
  userId : Option String
  deviceId : Option String
  firmwareVersion : Option String
  isAvailable : Option Bool
  brightness : Option Int
  red : Option Int
  green : Option Int
  blue : Option Int
  violet : Option Int
  whiteColor : Option Int
deriving Repr, DecidableEq

/-- A room from the cloud response. Only the devices field is consumed by the
fetch path; none models a missing or non-array devices field. -/
structure RawRoom where
  devices : Option (List RawDevice)
deriving Repr, DecidableEq

/-- JavaScript x || d for a possibly absent string: absent and the empty
string are falsy. -/
def jsOrStr (v : Option String) (d : String) : String :=
  match v with
  | some s => if s = "" then d else s
  | none => d

/-- JavaScript x || d for a possibly absent number: absent and 0 are falsy. -/
def jsOrInt (v : Option Int) (d : Int) : Int :=
  match v with
  | some n => if n = 0 then d else n
  | none => d

/-- JavaScript x || d for a possibly absent boolean. -/
def jsOrBool (v : Option Bool) (d : Bool) : Bool :=
  match v with
  | some b => if b then b else d
  | none => d

/-- Runtime value of the generation field: device.generation || 1 is the wire
string when truthy and the number 1 otherwise. -/
inductive GenerationValue where
  | str (s : String)
  | num (n : Int)
deriving Repr, DecidableEq

/-- The value mapDevice actually returns at runtime: bulbId, groupId and
nickname are copied with no default (absent stays absent), generation defaults
to the number 1, and the remaining fields carry the defaults of the source. -/
structure MappedDevice where
  bulbId : Option String
  groupId : Option String
  nickname : Option String
  modeId : String
  generation : GenerationValue
  userId : String
  deviceId : String
  firmwareVersion : String
  isAvailable : Bool
  brightness : Int
  red : Int
  green : Int
  blue : Int
  violet : Int
  whiteColor : Int
deriving Repr, DecidableEq

/-- mapDevice (platform.ts 246-268) together with the missing bulb_ID warning
flag: log.warn fires iff bulb_ID is falsy, that is absent or the empty
string. -/
def mapDevice (device : RawDevice) : MappedDevice × Bool :=
  ({ bulbId := device.bulb_ID
     groupId := device.groupId
     nickname := device.nickname
     modeId := jsOrStr device.modeId ("off")
     generation :=
       match device.generation with
       | some s => if s = "" then GenerationValue.num 1 else GenerationValue.str s
       | none => GenerationValue.num 1
     userId := jsOrStr device.userId ("")
     deviceId := jsOrStr device.deviceId ("")
     firmwareVersion := jsOrStr device.firmwareVersion ("")
     isAvailable := jsOrBool device.isAvailable false
     brightness := jsOrInt device.brightness 0
     red := jsOrInt device.red 0
     green := jsOrInt device.green 0
     blue := jsOrInt device.blue 0
     violet := jsOrInt device.violet 0
     whiteColor := jsOrInt device.whiteColor 0 },
   match device.bulb_ID with
   | none => true
   | some s => s == "")

/-- extractDevicesFromRoom (platform.ts 271-276). -/
def extractDevicesFromRoom (room : RawRoom) : List (MappedDevice × Bool) :=
  match room.devices with
  | some ds => ds.map mapDevice
  | none => []

/-- getAllDevicesFromRooms (platform.ts 279-284). -/
def getAllDevicesFromRooms (rooms : List RawRoom) : List (MappedDevice × Bool) :=
  rooms.foldl (fun acc room => acc ++ extractDevicesFromRoom room) []

/-- Cloud response as seen after fetch and response.json(): a network or parse
failure (one of the two awaits threw), a JSON array of rooms, a JSON object,
or some other non-array JSON value. -/
inductive CloudResponse where
  | failure
  | jsonArray (rooms : List RawRoom)
  | jsonObject
  | jsonOther
deriving Repr, DecidableEq

/-- Result of getDevicesAndStatesFromServer: the device list and the log
counters. -/
structure FetchResult where
  devices : List MappedDevice
  errorLogs : Nat
  warnLogs : Nat
deriving Repr, DecidableEq

/-- getDevicesAndStatesFromServer (platform.ts 161-191). Every branch returns
a value, so the function never propagates an exception: the catch turns any
failure into one log.error call and an empty list, and a non-array body is
reported with TWO log.error calls (lines 174-175) and yields an empty list. -/
def getDevicesAndStatesFromServer (resp : CloudResponse) : FetchResult :=
  match resp with
  | CloudResponse.failure => { devices := [], errorLogs := 1, warnLogs := 0 }
  | CloudResponse.jsonObject => { devices := [], errorLogs := 2, warnLogs := 0 }
  | CloudResponse.jsonOther => { devices := [], errorLogs := 2, warnLogs := 0 }
  | CloudResponse.jsonArray rooms =>
      let pairs := getAllDevicesFromRooms rooms
      { devices := pairs.map Prod.fst
        errorLogs := 0
        warnLogs := (pairs.filter (fun p => p.2)).length }

/-- Result of one accessory SET handler call: the context device object after
the handler, the payload handed to sendBulbUpdateToServer, and whether the
catch branch logged an error. -/
structure SetResult where
  ctx : ContextDevice
  payload : TuoLifeBulbDevice
  errorLogged : Bool
deriving Repr, DecidableEq

/-- setOn of TuoLifeBulbAccessory: the optimistic in-place modeId write, the
full snapshot payload read back from the getters (brightness is the stored
value when turning on and the constant 5 when turning off), and the try/catch
around the send, whose outcome is the send argument. The context write happens
before the send and does not depend on its outcome. The lastChanged timestamp
has no reader and is not modelled. -/
def setOn (ctx0 : ContextDevice) (value : Bool) (send : Except String Unit) : SetResult :=
  let ctx1 : ContextDevice :=
    { ctx0 with dev :=
        { ctx0.dev with modeId := if value then deviceModes.onMode else deviceModes.off } }
  let aBulb : TuoLifeBulbDevice :=
    { nickname := ctx1.dev.nickname
      generation := ctx1.dev.generation
      userId := ctx1.dev.userId
      groupId := ctx1.dev.groupId
      bulbId := ctx1.dev.bulbId
      deviceId := ctx1.dev.deviceId
      firmwareVersion := ctx1.dev.firmwareVersion
      isAvailable := ctx1.dev.isAvailable
      modeId := if value then deviceModes.onMode else deviceModes.off
      brightness := if value then ctx1.dev.brightness else 5
      red := ctx1.dev.red
      green := ctx1.dev.green
      blue := ctx1.dev.blue
      violet := ctx1.dev.violet
      whiteColor := ctx1.dev.whiteColor }
  { ctx := ctx1
    payload := aBulb
    errorLogged := match send with | Except.ok _ => false | Except.error _ => true }

/-- setBrightness of TuoLifeBulbAccessory: writes brightness in place, builds
the snapshot with modeId forced to deviceModes.onMode IN THE PAYLOAD ONLY (the
context modeId is never written), sends inside try/catch, and re-writes the
same brightness after the catch (line 199 of the handler file). -/
def setBrightness (ctx0 : ContextDevice) (value : Int) (send : Except String Unit) :
    SetResult :=
  let ctx1 : ContextDevice := { ctx0 with dev := { ctx0.dev with brightness := value } }
  let aBulb : TuoLifeBulbDevice :=
    { nickname := ctx1.dev.nickname
      generation := ctx1.dev.generation
      userId := ctx1.dev.userId
      groupId := ctx1.dev.groupId
      bulbId := ctx1.dev.bulbId
      deviceId := ctx1.dev.deviceId
      firmwareVersion := ctx1.dev.firmwareVersion
      isAvailable := ctx1.dev.isAvailable
      modeId := deviceModes.onMode
      brightness := value
      red := ctx1.dev.red
      green := ctx1.dev.green
      blue := ctx1.dev.blue
      violet := ctx1.dev.violet
      whiteColor := ctx1.dev.whiteColor }
  let ctx2 : ContextDevice := { ctx1 with dev := { ctx1.dev with brightness := value } }
  { ctx := ctx2
    payload := aBulb
    errorLogged := match send with | Except.ok _ => false | Except.error _ => true }

/-- getOn of TuoLifeBulbAccessory: the locally observable power state, derived
from the stored modeId. -/
def getOn (ctx : ContextDevice) : Bool :=
  ctx.dev.modeId != deviceModes.off

/-- Trigger-level state of discoverDevices and the 5 second poll: the guard
flag, the number of getDevicesAndStatesFromServer invocations so far, and how
many passes of each kind are currently awaiting their fetch. -/
structure ConcState where
  isDiscoveryInProgress : Bool
  fetchCount : Nat
  pendingDiscover : Nat
  pendingSync : Nat
deriving Repr, DecidableEq

/-- discoverDevices (platform.ts 74-86): return immediately when the guard is
set; otherwise set the guard (it is never cleared anywhere in the program) and
start a fetch. -/
def discoverDevicesTrigger (s : ConcState) : ConcState :=
  if s.isDiscoveryInProgress then s
  else { s with isDiscoveryInProgress := true
                fetchCount := s.fetchCount + 1
                pendingDiscover := s.pendingDiscover + 1 }

/-- One firing of the 5 second interval (platform.ts 30 and 194): the poll
body starts its fetch unconditionally; it has no guard of any kind. -/
def syncTrigger (s : ConcState) : ConcState :=
  { s with fetchCount := s.fetchCount + 1, pendingSync := s.pendingSync + 1 }

/-- The observable trigger and completion events of the platform. -/
inductive ConcEvent where
  | discoverCall
  | syncCall
  | discoverFetchDone
  | syncFetchDone
deriving Repr, DecidableEq

/-- Step of the event semantics. No event, fetch completions included, ever
clears the discovery guard. -/
def concStep (s : ConcState) : ConcEvent → ConcState
  | ConcEvent.discoverCall => discoverDevicesTrigger s
  | ConcEvent.syncCall => syncTrigger s
  | ConcEvent.discoverFetchDone => { s with pendingDiscover := s.pendingDiscover - 1 }
  | ConcEvent.syncFetchDone => { s with pendingSync := s.pendingSync - 1 }

/-- Run of a sequence of events. -/
def concRun (s : ConcState) (es : List ConcEvent) : ConcState :=
  es.foldl concStep s

/-- Concrete fetched device: bulbId a, brightness 80, mode off. -/
def devA : TuoLifeBulbDevice :=
  { brightness := 80, nickname := "Lamp A", generation := "1", userId := "u1",
    groupId := "g1", bulbId := "a", deviceId := "d1", firmwareVersion := "1.0",
    isAvailable := true, modeId := "off", red := 0, green := 0, blue := 0,
    violet := 0, whiteColor := 0 }

/-- Concrete device with bulbId b. -/
def devB : TuoLifeBulbDevice :=
  { devA with bulbId := "b", nickname := "Lamp B", brightness := 40,
              modeId := "calm5", deviceId := "d2" }

/-- Cached accessory for bulb a, brightness 50, mode calm5. -/
def accA : PlatformAccessory :=
  { ref := 0, displayName := "Lamp A", uuid := uuidGenerate ("a"),
    context := { dev := { devA with brightness := 50, modeId := "calm5" }, onProp := none } }

/-- Cached accessory for bulb b. -/
def accB : PlatformAccessory :=
  { ref := 1, displayName := "Lamp B", uuid := uuidGenerate ("b"),
    context := { dev := devB, onProp := none } }

/-- Platform state whose accessory Map holds exactly A and B. -/
def stAB : PlatformState :=
  { accessories := [(uuidGenerate ("a"), accA), (uuidGenerate ("b"), accB)],
    discoveredCacheUUIDs := [], isDiscoveryInProgress := true, nextRef := 2 }

/-- Platform state with an empty accessory Map. -/
def stEmpty : PlatformState :=
  { accessories := [], discoveredCacheUUIDs := [], isDiscoveryInProgress := false,
    nextRef := 0 }

/-- Context device with brightness 70, currently on. -/
def ctx70 : ContextDevice :=
  { dev := { devA with brightness := 70, modeId := "calm5" }, onProp := none }

/-- Context device currently off, brightness 50. -/
def ctxOff : ContextDevice :=
  { dev := { devA with brightness := 50, modeId := "off" }, onProp := none }

/-- Raw wire device with every field absent. -/
def rawEmpty : RawDevice :=
  { bulb_ID := none, groupId := none, nickname := none, modeId := none,
    generation := none, userId := none, deviceId := none, firmwareVersion := none,
    isAvailable := none, brightness := none, red := none, green := none,
    blue := none, violet := none, whiteColor := none }

/-- Fresh trigger state at process start. -/
def concStart : ConcState :=
  { isDiscoveryInProgress := false, fetchCount := 0, pendingDiscover := 0,
    pendingSync := 0 }

/-! Helper lemmas about the reconciliation fold. -/

/-- Mapping a function that fixes every element of a list is the identity. -/
lemma map_id_of_fix {α : Type} (l : List α) (f : α → α) (h : ∀ a ∈ l, f a = a) :
    l.map f = l := by
  induction l with
  | nil => rfl
  | cons x xs ih =>
      rw [List.map_cons, h x (List.mem_cons_self x xs),
        ih (fun a ha => h a (List.mem_cons_of_mem x ha))]

/-- Map extensionality over the members of the list. -/
lemma map_ext_mem {α β : Type} : ∀ (l : List α) (f g : α → β),
    (∀ a ∈ l, f a = g a) → l.map f = l.map g := by
  intro l
  induction l with
  | nil => intro f g h; rfl
  | cons x xs ih =>
      intro f g h
      rw [List.map_cons, List.map_cons, h x (List.mem_cons_self x xs),
        ih f g (fun a ha => h a (List.mem_cons_of_mem x ha))]

/-- The per-entry action preserves the key of the entry. -/
lemma entryStepP_fst (f : TuoLifeBulbDevice → String → Bool) (d : TuoLifeBulbDevice)
    (p : String × PlatformAccessory) : (entryStepP f d p).1 = p.1 := by
  unfold entryStepP
  split
  · rfl
  · rfl

/-- A second in-place overwrite absorbs the first one. -/
lemma updateExisting_overwrite (a : PlatformAccessory) (d e : TuoLifeBulbDevice) :
    updateExisting (updateExisting a d) e = updateExisting a e := rfl

/-- Accumulator characterization of the last matching device. -/
lemma lastMatchP_shift (f : TuoLifeBulbDevice → String → Bool) (k : String) :
    ∀ (D : List TuoLifeBulbDevice) (a : Option TuoLifeBulbDevice),
      D.foldl (fun a d => if f d k then some d else a) a =
        match lastMatchP f k D with
        | some d => some d
        | none => a := by
  intro D
  induction D with
  | nil =>
      intro a
      simp [lastMatchP]
  | cons d ds ih =>
      intro a
      have hcons : lastMatchP f k (d :: ds) =
          ds.foldl (fun a d => if f d k then some d else a)
            (if f d k then some d else none) := rfl
      rw [List.foldl_cons, ih, hcons, ih]
      cases hm : lastMatchP f k ds <;> cases hf : f d k <;> simp

/-- The action of a device list on an entry is decided by the last device that
matches the key of the entry. -/
lemma entryFoldP_eq (f : TuoLifeBulbDevice → String → Bool) :
    ∀ (D : List TuoLifeBulbDevice) (p : String × PlatformAccessory),
      entryFoldP f p D =
        match lastMatchP f p.1 D with
        | none => p
        | some d => (p.1, updateExisting p.2 d) := by
  intro D
  induction D with
  | nil =>
      intro p
      simp [entryFoldP, lastMatchP]
  | cons d ds ih =>
      intro p
      have h1 : entryFoldP f p (d :: ds) = entryFoldP f (entryStepP f d p) ds := rfl
      have h2 : lastMatchP f p.1 (d :: ds) =
          ds.foldl (fun a e => if f e p.1 then some e else a)
            (if f d p.1 then some d else none) := rfl
      rw [h1, ih, h2, lastMatchP_shift]
      cases hf : f d p.1 <;> cases hm : lastMatchP f p.1 ds <;>
        simp [entryStepP, hf, hm, updateExisting_overwrite]

/-- Folding a device list over an entry preserves its key. -/
lemma entryFoldP_fst (f : TuoLifeBulbDevice → String → Bool)
    (p : String × PlatformAccessory) (D : List TuoLifeBulbDevice) :
    (entryFoldP f p D).1 = p.1 := by
  rw [entryFoldP_eq]
  cases lastMatchP f p.1 D <;> rfl

/-- The per-entry action of a device list is idempotent. -/
lemma entryFoldP_idem (f : TuoLifeBulbDevice → String → Bool)
    (p : String × PlatformAccessory) (D : List TuoLifeBulbDevice) :
    entryFoldP f (entryFoldP f p D) D = entryFoldP f p D := by
  have h1 := entryFoldP_eq f D p
  have h2 := entryFoldP_eq f D (entryFoldP f p D)
  rw [entryFoldP_fst] at h2
  rw [h2, h1]
  cases hm : lastMatchP f p.1 D <;> simp [updateExisting_overwrite]

/-- A fold of per-entry maps factors through a single map. -/
lemma foldl_map_entry (f : TuoLifeBulbDevice → String → Bool) :
    ∀ (D : List TuoLifeBulbDevice) (m : List (String × PlatformAccessory)),
      D.foldl (fun m d => m.map (fun p => entryStepP f d p)) m =
        m.map (fun p => entryFoldP f p D) := by
  intro D
  induction D with
  | nil =>
      intro m
      exact (map_id_of_fix m _ (fun p hp => rfl)).symm
  | cons d ds ih =>
      intro m
      rw [List.foldl_cons, ih, List.map_map]
      rfl

/-- A none lookup means the key is absent from the key list, and conversely. -/
lemma lookupAcc_none_iff : ∀ (m : List (String × PlatformAccessory)) (u : String),
    lookupAcc m u = none ↔ u ∉ m.map Prod.fst := by
  intro m
  induction m with
  | nil => intro u; simp [lookupAcc]
  | cons q qs ih =>
      intro u
      by_cases hq : q.1 = u
      · simp [lookupAcc, hq]
      · have hq2 : u ≠ q.1 := fun hc => hq hc.symm
        simp [lookupAcc, hq, hq2, ih]

/-- A successful lookup means the key occurs in the key list. -/
lemma lookupAcc_some_mem : ∀ (m : List (String × PlatformAccessory)) (u : String)
    (a : PlatformAccessory), lookupAcc m u = some a → u ∈ m.map Prod.fst := by
  intro m
  induction m with
  | nil => intro u a h; simp [lookupAcc] at h
  | cons q qs ih =>
      intro u a h
      by_cases hq : q.1 = u
      · simp [hq]
      · rw [lookupAcc, if_neg hq] at h
        simp only [List.map_cons, List.mem_cons]
        exact Or.inr (ih u a h)

/-- Lookup through a key-preserving entry map applies the entry action under
the option. -/
lemma lookupAcc_map_entryFold (f : TuoLifeBulbDevice → String → Bool)
    (D : List TuoLifeBulbDevice) :
    ∀ (m : List (String × PlatformAccessory)) (u : String),
      lookupAcc (m.map (fun p => entryFoldP f p D)) u =
        Option.map (fun a => (entryFoldP f (u, a) D).2) (lookupAcc m u) := by
  intro m
  induction m with
  | nil => intro u; rfl
  | cons p ps ih =>
      intro u
      obtain ⟨k, a⟩ := p
      simp only [List.map_cons, lookupAcc, entryFoldP_fst]
      by_cases h : k = u
      · subst h
        simp
      · simp [h, ih]

/-- The accessories component of one loop iteration of registerDevices is the
per-entry action. -/
lemma registerOne_accs (se : PlatformState × Effects) (d : TuoLifeBulbDevice) :
    (registerOne se d).1.accessories =
      se.1.accessories.map (fun p => entryStepP regMatch d p) := by
  by_cases hb : d.bulbId = ""
  · have h1 : (registerOne se d).1 = se.1 := by simp [registerOne, hb]
    rw [h1]
    refine (map_id_of_fix se.1.accessories _ ?_).symm
    intro p hp
    simp [entryStepP, regMatch, hb]
  · cases hl : lookupAcc se.1.accessories (uuidGenerate d.bulbId) with
    | some a =>
        have h1 : (registerOne se d).1.accessories =
            mutateAt se.1.accessories (uuidGenerate d.bulbId) d := by
          simp [registerOne, hb, hl]
        rw [h1, mutateAt]
        apply map_ext_mem
        intro p hp
        by_cases hp1 : p.1 = uuidGenerate d.bulbId
        · simp [entryStepP, regMatch, hb, hp1]
        · have hne2 : ¬ (uuidGenerate d.bulbId = p.1) := fun hc => hp1 hc.symm
          simp [entryStepP, regMatch, hb, hp1, hne2]
    | none =>
        have h1 : (registerOne se d).1.accessories = se.1.accessories := by
          simp [registerOne, hb, hl]
        rw [h1]
        refine (map_id_of_fix se.1.accessories _ ?_).symm
        intro p hp
        have hmem := (lookupAcc_none_iff se.1.accessories (uuidGenerate d.bulbId)).mp hl
        have hne2 : ¬ (uuidGenerate d.bulbId = p.1) := by
          intro hc
          rw [hc] at hmem
          exact hmem (List.mem_map_of_mem Prod.fst hp)
        simp [entryStepP, regMatch, hne2]

/-- The accessories Map after the registerDevices loop is the entry-wise
action of the device list; in particular no entry is added or removed. -/
lemma foldRegisterOne_accs : ∀ (D : List TuoLifeBulbDevice)
    (se : PlatformState × Effects),
    (D.foldl registerOne se).1.accessories =
      se.1.accessories.map (fun p => entryFoldP regMatch p D) := by
  intro D
  induction D with
  | nil =>
      intro se
      exact (map_id_of_fix _ _ (fun p hp => rfl)).symm
  | cons d ds ih =>
      intro se
      rw [List.foldl_cons, ih, registerOne_accs, List.map_map]
      rfl

/-- Accessories of registerDevices as a single entry-wise map. -/
lemma registerDevices_accs (devices : List TuoLifeBulbDevice) (st : PlatformState) :
    (registerDevices devices st).1.accessories =
      st.accessories.map (fun p => entryFoldP regMatch p devices) :=
  foldRegisterOne_accs devices (st, Effects.empty)

/-- The accessories component of one loop iteration of syncBulbsWithServer is
the per-entry action with the sync match test. -/
lemma syncOne_accs (st : PlatformState) (d : TuoLifeBulbDevice) :
    (syncOne st d).accessories =
      st.accessories.map (fun p => entryStepP syncMatch d p) := by
  cases hl : lookupAcc st.accessories (uuidGenerate d.bulbId) with
  | some a =>
      have h1 : (syncOne st d).accessories =
          mutateAt st.accessories (uuidGenerate d.bulbId) d := by
        simp [syncOne, hl]
      rw [h1, mutateAt]
      apply map_ext_mem
      intro p hp
      by_cases hp1 : p.1 = uuidGenerate d.bulbId
      · simp [entryStepP, syncMatch, hp1]
      · have hne2 : ¬ (uuidGenerate d.bulbId = p.1) := fun hc => hp1 hc.symm
        simp [entryStepP, syncMatch, hp1, hne2]
  | none =>
      have h1 : (syncOne st d).accessories = st.accessories := by simp [syncOne, hl]
      rw [h1]
      refine (map_id_of_fix st.accessories _ ?_).symm
      intro p hp
      have hmem := (lookupAcc_none_iff st.accessories (uuidGenerate d.bulbId)).mp hl
      have hne2 : ¬ (uuidGenerate d.bulbId = p.1) := by
        intro hc
        rw [hc] at hmem
        exact hmem (List.mem_map_of_mem Prod.fst hp)
      simp [entryStepP, syncMatch, hne2]

/-- The accessories Map after the sync loop is the entry-wise action. -/
lemma foldSyncOne_accs : ∀ (D : List TuoLifeBulbDevice) (st : PlatformState),
    (D.foldl syncOne st).accessories =
      st.accessories.map (fun p => entryFoldP syncMatch p D) := by
  intro D
  induction D with
  | nil =>
      intro st
      exact (map_id_of_fix _ _ (fun p hp => rfl)).symm
  | cons d ds ih =>
      intro st
      rw [List.foldl_cons, ih, syncOne_accs, List.map_map]
      rfl

/-- Accessories of syncBulbsWithServer as a single entry-wise map. -/
lemma syncBulbsWithServer_accs (devices : List TuoLifeBulbDevice) (st : PlatformState) :
    (syncBulbsWithServer devices st).1.accessories =
      st.accessories.map (fun p => entryFoldP syncMatch p devices) :=
  foldSyncOne_accs devices st

/-- Entry-wise maps preserve the key list of the accessories Map. -/
lemma map_fst_map_entryFold (f : TuoLifeBulbDevice → String → Bool)
    (m : List (String × PlatformAccessory)) (D : List TuoLifeBulbDevice) :
    (m.map (fun p => entryFoldP f p D)).map Prod.fst = m.map Prod.fst := by
  rw [List.map_map]
  exact map_ext_mem m _ _ (fun p hp => entryFoldP_fst f p D)

/-- The registered uuid list of the loop, as a function of the key list of the
Map, which never changes during the loop. -/
lemma foldRegisterOne_registered : ∀ (D : List TuoLifeBulbDevice)
    (se : PlatformState × Effects),
    (D.foldl registerOne se).2.registeredUUIDs =
      se.2.registeredUUIDs ++ regRegistered (se.1.accessories.map Prod.fst) D := by
  intro D
  induction D with
  | nil => intro se; simp [regRegistered]
  | cons d ds ih =>
      intro se
      rw [List.foldl_cons, ih]
      have hkeys : (registerOne se d).1.accessories.map Prod.fst =
          se.1.accessories.map Prod.fst := by
        rw [registerOne_accs, List.map_map]
        exact map_ext_mem _ _ _ (fun p hp => entryStepP_fst regMatch d p)
      rw [hkeys]
      by_cases hb : d.bulbId = ""
      · have h2 : (registerOne se d).2.registeredUUIDs = se.2.registeredUUIDs := by
          simp [registerOne, hb]
        rw [h2]
        simp [regRegistered, hb]
      · cases hl : lookupAcc se.1.accessories (uuidGenerate d.bulbId) with
        | some a =>
            have h2 : (registerOne se d).2.registeredUUIDs = se.2.registeredUUIDs := by
              simp [registerOne, hb, hl]
            have hmem : uuidGenerate d.bulbId ∈ se.1.accessories.map Prod.fst :=
              lookupAcc_some_mem _ _ _ hl
            rw [h2]
            simp [regRegistered, hb, hmem]
        | none =>
            have h2 : (registerOne se d).2.registeredUUIDs =
                se.2.registeredUUIDs ++ [uuidGenerate d.bulbId] := by
              simp [registerOne, hb, hl]
            have hmem : uuidGenerate d.bulbId ∉ se.1.accessories.map Prod.fst :=
              (lookupAcc_none_iff _ _).mp hl
            rw [h2]
            simp [regRegistered, hb, hmem]

/-- The device loop of registerDevices never unregisters anything. -/
lemma foldRegisterOne_unregistered : ∀ (D : List TuoLifeBulbDevice)
    (se : PlatformState × Effects),
    (D.foldl registerOne se).2.unregisteredUUIDs = se.2.unregisteredUUIDs := by
  intro D
  induction D with
  | nil => intro se; rfl
  | cons d ds ih =>
      intro se
      rw [List.foldl_cons, ih]
      by_cases hb : d.bulbId = ""
      · simp [registerOne, hb]
      · cases hl : lookupAcc se.1.accessories (uuidGenerate d.bulbId) <;>
          simp [registerOne, hb, hl]

/-- Filtering entries on key absence before projecting to keys commutes with
projecting first. -/
lemma filter_fst_map (ks : List String) : ∀ (m : List (String × PlatformAccessory)),
    (m.filter (fun p => !(ks.contains p.1))).map Prod.fst
      = (m.map Prod.fst).filter (fun u => !(ks.contains u)) := by
  intro m
  induction m with
  | nil => rfl
  | cons p ps ih =>
      rw [List.map_cons, List.filter_cons, List.filter_cons]
      cases hq : (!ks.contains p.1) with
      | false =>
          rw [if_neg Bool.false_ne_true, if_neg Bool.false_ne_true]
          exact ih
      | true =>
          rw [if_pos rfl, if_pos rfl, List.map_cons, ih]

/-- The uuids unregistered by registerDevices are exactly the Map keys absent
from the final discoveredCacheUUIDs; the Map itself keeps all its entries. -/
lemma registerDevices_unregistered (devices : List TuoLifeBulbDevice) (st : PlatformState) :
    (registerDevices devices st).2.unregisteredUUIDs =
      (st.accessories.map Prod.fst).filter
        (fun u => !((registerDevices devices st).1.discoveredCacheUUIDs.contains u)) := by
  have h0 := foldRegisterOne_unregistered devices (st, Effects.empty)
  have h1 : (registerDevices devices st).2.unregisteredUUIDs =
      (devices.foldl registerOne (st, Effects.empty)).2.unregisteredUUIDs ++
      (((devices.foldl registerOne (st, Effects.empty)).1.accessories.filter
        (fun p =>
          !((devices.foldl registerOne (st, Effects.empty)).1.discoveredCacheUUIDs.contains
            p.1))).map Prod.fst) := rfl
  rw [h1, h0]
  have h2 : Effects.empty.unregisteredUUIDs = ([] : List String) := rfl
  rw [h2, List.nil_append, filter_fst_map]
  have hacc : (devices.foldl registerOne (st, Effects.empty)).1.accessories.map Prod.fst
      = st.accessories.map Prod.fst := by
    rw [foldRegisterOne_accs, map_fst_map_entryFold]
  rw [hacc]
  rfl

/-- The uuids registered by registerDevices, over the key list of the Map. -/
lemma registerDevices_registered (devices : List TuoLifeBulbDevice) (st : PlatformState) :
    (registerDevices devices st).2.registeredUUIDs =
      regRegistered (st.accessories.map Prod.fst) devices := by
  have h1 : (registerDevices devices st).2.registeredUUIDs =
      (devices.foldl registerOne (st, Effects.empty)).2.registeredUUIDs := rfl
  rw [h1, foldRegisterOne_registered]
  have h2 : Effects.empty.registeredUUIDs = ([] : List String) := rfl
  rw [h2, List.nil_append]

/-- C1 (amended): a reconciliation never deletes an entry from the accessories
Map. registerDevices passes to the host exactly the uuids of Map entries that
are absent from discoveredCacheUUIDs, but every accessory, stale or current,
remains a member of the Map; the periodic syncBulbsWithServer pass neither
unregisters nor removes anything. -/
theorem tuolife_C1_amended (st : PlatformState) (devices : List TuoLifeBulbDevice) :
    (registerDevices devices st).1.accessories.map Prod.fst = st.accessories.map Prod.fst
    ∧ (registerDevices devices st).2.unregisteredUUIDs
        = (st.accessories.map Prod.fst).filter
            (fun u => !((registerDevices devices st).1.discoveredCacheUUIDs.contains u))
    ∧ (syncBulbsWithServer devices st).1.accessories.map Prod.fst
        = st.accessories.map Prod.fst
    ∧ (syncBulbsWithServer devices st).2.unregisteredUUIDs = [] := by
  refine ⟨?_, registerDevices_unregistered devices st, ?_, rfl⟩
  · rw [registerDevices_accs, map_fst_map_entryFold]
  · rw [syncBulbsWithServer_accs, map_fst_map_entryFold]

/-- C1 counterexample: with the accessory set containing A and B and a fetch
returning only A, registerDevices unregisters B from the host but B is still
present in the accessories Map afterwards, and the poll pass
syncBulbsWithServer unregisters nothing at all — contradicting the claim that
the stale accessory is removed from the accessory set in both passes. -/
theorem tuolife_C1_counterexample :
    (lookupAcc (registerDevices [devA] stAB).1.accessories (uuidGenerate ("b"))).isSome = true
    ∧ (registerDevices [devA] stAB).2.unregisteredUUIDs = [uuidGenerate ("b")]
    ∧ (syncBulbsWithServer [devA] stAB).2.unregisteredUUIDs = [] := by decide

/-- C2 (amended): running registerDevices twice with the same device list
yields the same accessories Map as running it once, and the second run passes
exactly the same uuid list to the host register call as the first run did —
because freshly created accessories are never inserted into the accessories
Map, a uuid registered by the first run is registered again by the second,
rather than skipped. -/
theorem tuolife_C2_amended (st : PlatformState) (devices : List TuoLifeBulbDevice) :
    (registerDevices devices (registerDevices devices st).1).1.accessories
        = (registerDevices devices st).1.accessories
    ∧ (registerDevices devices (registerDevices devices st).1).2.registeredUUIDs
        = (registerDevices devices st).2.registeredUUIDs := by
  constructor
  · rw [registerDevices_accs, registerDevices_accs, List.map_map]
    apply map_ext_mem
    intro p hp
    exact entryFoldP_idem regMatch p devices
  · rw [registerDevices_registered, registerDevices_registered,
      registerDevices_accs, map_fst_map_entryFold]

/-- C2 counterexample: starting from an empty accessories Map, the first
registerDevices run registers the uuid of device A, and a second run with the
same list registers the very same uuid again — the claim that a uuid already
registered by the first run is never re-registered is false on the code. -/
theorem tuolife_C2_counterexample :
    (registerDevices [devA] stEmpty).2.registeredUUIDs = [uuidGenerate ("a")]
    ∧ (registerDevices [devA] (registerDevices [devA] stEmpty).1).2.registeredUUIDs
        = [uuidGenerate ("a")] := by decide

/-- C3 (confirmed): when an existing accessory matches a fetched device (the
last matching device of the cycle), both registerDevices and
syncBulbsWithServer overwrite, in place, its context brightness with the
fetched brightness and its context on property with the derived power
(modeId different from off); the object identity (ref) is preserved, so the
record is mutated rather than replaced. -/
theorem tuolife_C3_update_in_place (st : PlatformState) (u : String)
    (acc : PlatformAccessory) (d : TuoLifeBulbDevice) (devices : List TuoLifeBulbDevice)
    (hacc : lookupAcc st.accessories u = some acc)
    (hreg : lastMatchP regMatch u devices = some d)
    (hsync : lastMatchP syncMatch u devices = some d) :
    lookupAcc (registerDevices devices st).1.accessories u = some (updateExisting acc d)
    ∧ lookupAcc (syncBulbsWithServer devices st).1.accessories u
        = some (updateExisting acc d)
    ∧ (updateExisting acc d).ref = acc.ref
    ∧ (updateExisting acc d).context.dev.brightness = d.brightness
    ∧ (updateExisting acc d).context.onProp = some (d.modeId != deviceModes.off) := by
  refine ⟨?_, ?_, rfl, rfl, rfl⟩
  · rw [registerDevices_accs, lookupAcc_map_entryFold, hacc]
    simp [entryFoldP_eq, hreg]
  · rw [syncBulbsWithServer_accs, lookupAcc_map_entryFold, hacc]
    simp [entryFoldP_eq, hsync]

/-- C3 witness: the accessory for bulb a with brightness 50 and mode calm5,
reconciled against fetched device A with brightness 80 and mode off, ends as
the in-place update of the very same record: same ref, brightness 80, derived
power false. -/
theorem tuolife_C3_witness :
    lookupAcc (registerDevices [devA] stAB).1.accessories (uuidGenerate ("a"))
        = some (updateExisting accA devA)
    ∧ lookupAcc (syncBulbsWithServer [devA] stAB).1.accessories (uuidGenerate ("a"))
        = some (updateExisting accA devA)
    ∧ (updateExisting accA devA).ref = accA.ref
    ∧ (updateExisting accA devA).context.dev.brightness = devA.brightness
    ∧ (updateExisting accA devA).context.onProp
        = some (devA.modeId != deviceModes.off) :=
  tuolife_C3_update_in_place stAB (uuidGenerate ("a")) accA devA [devA]
    (by decide) (by decide) (by decide)

/-- C4 (amended): only discoverDevices carries a reentrancy guard — a second
discoverDevices trigger while the first is pending is a complete no-op, so two
discover triggers in the pending window cost exactly one fetch. The periodic
syncBulbsWithServer trigger has no guard at all: every firing starts a fetch
and adds a pending pass, so poll passes can overlap. -/
theorem tuolife_C4_amended (s t : ConcState) :
    discoverDevicesTrigger (discoverDevicesTrigger s) = discoverDevicesTrigger s
    ∧ (s.isDiscoveryInProgress = false →
        (discoverDevicesTrigger (discoverDevicesTrigger s)).fetchCount = s.fetchCount + 1
        ∧ (discoverDevicesTrigger (discoverDevicesTrigger s)).pendingDiscover
            = s.pendingDiscover + 1)
    ∧ (syncTrigger t).fetchCount = t.fetchCount + 1
    ∧ (syncTrigger t).pendingSync = t.pendingSync + 1 := by
  refine ⟨?_, ?_, rfl, rfl⟩
  · by_cases h : s.isDiscoveryInProgress <;> simp [discoverDevicesTrigger, h]
  · intro h
    simp [discoverDevicesTrigger, h]

/-- C4 witness: from the fresh start state, two discoverDevices triggers in
the pending window perform exactly one fetch, while a sync trigger always
performs a fetch. -/
theorem tuolife_C4_witness :
    discoverDevicesTrigger (discoverDevicesTrigger concStart) = discoverDevicesTrigger concStart
    ∧ (discoverDevicesTrigger (discoverDevicesTrigger concStart)).fetchCount
        = concStart.fetchCount + 1
    ∧ (syncTrigger concStart).fetchCount = concStart.fetchCount + 1 :=
  ⟨(tuolife_C4_amended concStart concStart).1,
   ((tuolife_C4_amended concStart concStart).2.1 rfl).1,
   (tuolife_C4_amended concStart concStart).2.2.1⟩

/-- C4 counterexample: two poll triggers inside the pending window of the
first (no completion event between them) perform TWO fetches and leave TWO
passes in flight — contradicting the claim that exactly one fetch results and
that at most one reconciliation pass is ever in flight. -/
theorem tuolife_C4_counterexample :
    (syncTrigger (syncTrigger concStart)).fetchCount = 2
    ∧ (syncTrigger (syncTrigger concStart)).pendingSync = 2 := by decide

/-- C5 (amended): getDevicesAndStatesFromServer is total — every network or
parse failure and every non-array body yields the empty device list rather
than an exception — but a JSON object body (like any non-array body) is
reported with exactly TWO log.error calls, not one; the catch branch logs
one. -/
theorem tuolife_C5_amended (rooms : List RawRoom) :
    (getDevicesAndStatesFromServer CloudResponse.failure).devices = []
    ∧ (getDevicesAndStatesFromServer CloudResponse.failure).errorLogs = 1
    ∧ (getDevicesAndStatesFromServer CloudResponse.jsonObject).devices = []
    ∧ (getDevicesAndStatesFromServer CloudResponse.jsonObject).errorLogs = 2
    ∧ (getDevicesAndStatesFromServer CloudResponse.jsonOther).devices = []
    ∧ (getDevicesAndStatesFromServer CloudResponse.jsonOther).errorLogs = 2
    ∧ (getDevicesAndStatesFromServer (CloudResponse.jsonArray rooms)).errorLogs = 0 :=
  ⟨rfl, rfl, rfl, rfl, rfl, rfl, rfl⟩

/-- C5 counterexample: a JSON object body produces two log.error calls, not
the single one the claim states. -/
theorem tuolife_C5_counterexample :
    (getDevicesAndStatesFromServer CloudResponse.jsonObject).errorLogs = 2
    ∧ (getDevicesAndStatesFromServer CloudResponse.jsonObject).errorLogs ≠ 1 := by decide

/-- C6 (amended): normalization copies bulb_ID, groupId and nickname through
unchanged with NO default (a missing bulb_ID stays undefined rather than
becoming the empty string, though the warning is still logged), defaults
modeId to off, the numeric fields to 0, isAvailable to false, and userId,
deviceId and firmwareVersion to the empty string — while generation defaults
to the number 1, not to a string. -/
theorem tuolife_C6_amended (raw : RawDevice)
    (hmode : raw.modeId = none) (hgen : raw.generation = none)
    (huser : raw.userId = none) (hdev : raw.deviceId = none)
    (hfw : raw.firmwareVersion = none) (hav : raw.isAvailable = none)
    (hbr : raw.brightness = none) (hred : raw.red = none) (hgreen : raw.green = none)
    (hblue : raw.blue = none) (hviolet : raw.violet = none)
    (hwhite : raw.whiteColor = none) :
    (mapDevice raw).1.bulbId = raw.bulb_ID
    ∧ (mapDevice raw).1.groupId = raw.groupId
    ∧ (mapDevice raw).1.nickname = raw.nickname
    ∧ (mapDevice raw).1.modeId = "off"
    ∧ (mapDevice raw).1.generation = GenerationValue.num 1
    ∧ (mapDevice raw).1.userId = ""
    ∧ (mapDevice raw).1.deviceId = ""
    ∧ (mapDevice raw).1.firmwareVersion = ""
    ∧ (mapDevice raw).1.isAvailable = false
    ∧ (mapDevice raw).1.brightness = 0
    ∧ (mapDevice raw).1.red = 0
    ∧ (mapDevice raw).1.green = 0
    ∧ (mapDevice raw).1.blue = 0
    ∧ (mapDevice raw).1.violet = 0
    ∧ (mapDevice raw).1.whiteColor = 0
    ∧ ((mapDevice raw).2 = true ↔ (raw.bulb_ID = none ∨ raw.bulb_ID = some "")) := by
  refine ⟨rfl, rfl, rfl, ?_, ?_, ?_, ?_, ?_, ?_, ?_, ?_, ?_, ?_, ?_, ?_, ?_⟩
  · simp [mapDevice, jsOrStr, hmode]
  · simp [mapDevice, hgen]
  · simp [mapDevice, jsOrStr, huser]
  · simp [mapDevice, jsOrStr, hdev]
  · simp [mapDevice, jsOrStr, hfw]
  · simp [mapDevice, jsOrBool, hav]
  · simp [mapDevice, jsOrInt, hbr]
  · simp [mapDevice, jsOrInt, hred]
  · simp [mapDevice, jsOrInt, hgreen]
  · simp [mapDevice, jsOrInt, hblue]
  · simp [mapDevice, jsOrInt, hviolet]
  · simp [mapDevice, jsOrInt, hwhite]
  · cases hb : raw.bulb_ID with
    | none => simp [mapDevice, hb]
    | some s => simp [mapDevice, hb]

/-- C6 witness: the all-absent raw device normalizes to the documented
defaults, with bulbId undefined, generation the number 1 and the warning
logged. -/
theorem tuolife_C6_witness :
    (mapDevice rawEmpty).1.bulbId = rawEmpty.bulb_ID
    ∧ (mapDevice rawEmpty).1.groupId = rawEmpty.groupId
    ∧ (mapDevice rawEmpty).1.nickname = rawEmpty.nickname
    ∧ (mapDevice rawEmpty).1.modeId = "off"
    ∧ (mapDevice rawEmpty).1.generation = GenerationValue.num 1
    ∧ (mapDevice rawEmpty).1.userId = ""
    ∧ (mapDevice rawEmpty).1.deviceId = ""
    ∧ (mapDevice rawEmpty).1.firmwareVersion = ""
    ∧ (mapDevice rawEmpty).1.isAvailable = false
    ∧ (mapDevice rawEmpty).1.brightness = 0
    ∧ (mapDevice rawEmpty).1.red = 0
    ∧ (mapDevice rawEmpty).1.green = 0
    ∧ (mapDevice rawEmpty).1.blue = 0
    ∧ (mapDevice rawEmpty).1.violet = 0
    ∧ (mapDevice rawEmpty).1.whiteColor = 0
    ∧ ((mapDevice rawEmpty).2 = true
        ↔ (rawEmpty.bulb_ID = none ∨ rawEmpty.bulb_ID = some "")) :=
  tuolife_C6_amended rawEmpty rfl rfl rfl rfl rfl rfl rfl rfl rfl rfl rfl rfl

/-- C6 counterexample: a device with bulb_ID absent is normalized with an
undefined bulbId, not the empty-string bulbId the claim states, and its
generation defaults to the number 1, not to the empty string. -/
theorem tuolife_C6_counterexample :
    (mapDevice rawEmpty).1.bulbId = none
    ∧ (mapDevice rawEmpty).1.bulbId ≠ some ""
    ∧ (mapDevice rawEmpty).1.generation = GenerationValue.num 1
    ∧ (mapDevice rawEmpty).1.generation ≠ GenerationValue.str ""
    ∧ (mapDevice rawEmpty).2 = true := by decide

/-- C7 (amended): setBrightness writes the requested level into the local
brightness and sends a payload whose modeId is the on constant and whose
brightness is the level — but the LOCAL modeId is left untouched, it is never
forced to the on constant. -/
theorem tuolife_C7_amended (ctx : ContextDevice) (value : Int)
    (send : Except String Unit) :
    (setBrightness ctx value send).ctx.dev.brightness = value
    ∧ (setBrightness ctx value send).ctx.dev.modeId = ctx.dev.modeId
    ∧ (setBrightness ctx value send).payload.modeId = deviceModes.onMode
    ∧ (setBrightness ctx value send).payload.brightness = value :=
  ⟨rfl, rfl, rfl, rfl⟩

/-- C7 counterexample: setBrightness 30 on an accessory whose local modeId is
off leaves the local modeId at off — the claim that the local modeId ends
equal to the on constant is false; only the payload carries the on mode. -/
theorem tuolife_C7_counterexample :
    (setBrightness ctxOff 30 (Except.ok ())).ctx.dev.modeId = "off"
    ∧ (setBrightness ctxOff 30 (Except.ok ())).ctx.dev.modeId ≠ deviceModes.onMode
    ∧ (setBrightness ctxOff 30 (Except.ok ())).ctx.dev.brightness = 30
    ∧ (setBrightness ctxOff 30 (Except.ok ())).payload.modeId = deviceModes.onMode := by
  decide

/-- C8 (amended): setOn false sends a payload with modeId off and brightness
5 and sets the local modeId to off — but the local brightness is left at its
previous value, it is never set to 5; the locally observable power state reads
off (the local write precedes the send and is independent of its outcome).
setOn true sets the local modeId to the on constant and sends the last known
brightness. -/
theorem tuolife_C8_amended (ctx : ContextDevice) (send : Except String Unit) :
    (setOn ctx false send).payload.modeId = deviceModes.off
    ∧ (setOn ctx false send).payload.brightness = 5
    ∧ (setOn ctx false send).ctx.dev.modeId = deviceModes.off
    ∧ (setOn ctx false send).ctx.dev.brightness = ctx.dev.brightness
    ∧ getOn (setOn ctx false send).ctx = false
    ∧ (setOn ctx true send).ctx.dev.modeId = deviceModes.onMode
    ∧ (setOn ctx true send).payload.brightness = ctx.dev.brightness :=
  ⟨rfl, rfl, rfl, rfl, rfl, rfl, rfl⟩

/-- C8 counterexample: setOn false on an accessory with local brightness 70
leaves the local brightness at 70 — the claim that the local brightness is set
to the fixed low default 5 when turning off is false; 5 appears only in the
upstream payload. -/
theorem tuolife_C8_counterexample :
    (setOn ctx70 false (Except.ok ())).ctx.dev.brightness = 70
    ∧ (setOn ctx70 false (Except.ok ())).ctx.dev.brightness ≠ 5
    ∧ (setOn ctx70 false (Except.ok ())).payload.brightness = 5
    ∧ (setOn ctx70 false (Except.ok ())).payload.modeId = "off" := by decide

/-- C9 (confirmed): a failed upstream send after setOn or setBrightness is
logged only: the handler still returns normally with exactly the same local
state and payload as on a successful send — the optimistic local mutation is
not rolled back and no exception reaches the host. -/
theorem tuolife_C9_no_rollback (ctx : ContextDevice) (b : Bool) (v : Int) (e : String) :
    (setOn ctx b (Except.error e)).ctx = (setOn ctx b (Except.ok ())).ctx
    ∧ (setOn ctx b (Except.error e)).payload = (setOn ctx b (Except.ok ())).payload
    ∧ (setOn ctx b (Except.error e)).errorLogged = true
    ∧ (setOn ctx b (Except.ok ())).errorLogged = false
    ∧ (setBrightness ctx v (Except.error e)).ctx = (setBrightness ctx v (Except.ok ())).ctx
    ∧ (setBrightness ctx v (Except.error e)).payload
        = (setBrightness ctx v (Except.ok ())).payload
    ∧ (setBrightness ctx v (Except.error e)).errorLogged = true
    ∧ (setBrightness ctx v (Except.ok ())).errorLogged = false :=
  ⟨rfl, rfl, rfl, rfl, rfl, rfl, rfl, rfl⟩

/-- C10 (confirmed): the discovery guard is set by the first discoverDevices
call and no event of the program — further calls, poll firings or fetch
completions — ever clears it; therefore after the first call, any later
discoverDevices call leaves the state completely unchanged and performs no
fetch, even after the first pass has fully completed. -/
theorem tuolife_C10_discovery_guard (s : ConcState) (es : List ConcEvent) :
    (discoverDevicesTrigger s).isDiscoveryInProgress = true
    ∧ (concRun (discoverDevicesTrigger s) es).isDiscoveryInProgress = true
    ∧ discoverDevicesTrigger (concRun (discoverDevicesTrigger s) es)
        = concRun (discoverDevicesTrigger s) es
    ∧ (discoverDevicesTrigger (concRun (discoverDevicesTrigger s) es)).fetchCount
        = (concRun (discoverDevicesTrigger s) es).fetchCount := by
  have hset : ∀ u : ConcState, (discoverDevicesTrigger u).isDiscoveryInProgress = true := by
    intro u
    by_cases h : u.isDiscoveryInProgress <;> simp [discoverDevicesTrigger, h]
  have hmono : ∀ (u : ConcState) (ev : ConcEvent), u.isDiscoveryInProgress = true →
      (concStep u ev).isDiscoveryInProgress = true := by
    intro u ev h
    cases ev <;> simp [concStep, discoverDevicesTrigger, syncTrigger, h]
  have hrun : ∀ (l : List ConcEvent) (u : ConcState), u.isDiscoveryInProgress = true →
      (concRun u l).isDiscoveryInProgress = true := by
    intro l
    induction l with
    | nil => intro u h; exact h
    | cons ev l ih =>
        intro u h
        exact ih (concStep u ev) (hmono u ev h)
  have hflag : (concRun (discoverDevicesTrigger s) es).isDiscoveryInProgress = true :=
    hrun es (discoverDevicesTrigger s) (hset s)
  have hid0 : ∀ u : ConcState, u.isDiscoveryInProgress = true →
      discoverDevicesTrigger u = u := by
    intro u h
    simp [discoverDevicesTrigger, h]
  have hid := hid0 (concRun (discoverDevicesTrigger s) es) hflag
  exact ⟨hset s, hflag, hid, by rw [hid]⟩

end TuoLife
